import Mathlib

/-!
Verification of `property-data-tester/scripts/delete-hawaii-data.py`.

The script `cleanup_hawaii_records` is a linear interactive procedure over a
PostgreSQL database: it selects the property ids of all rows of `properties`
with `property_state = 'HI'`, counts the matching rows in a fixed list of
seven tables, asks for confirmation, deletes in a fixed dependency order
(toggling two change-tracking triggers around two of the deletes), asks for a
commit confirmation, commits or rolls back, and reports final counts.  Any
exception is caught at the top level, answered with a rollback attempt, and
the cursor and connection are closed in a `finally` block.

We embed the database as lists of rows per table, and the procedure as a
deterministic interpreter that threads an explicit state (committed snapshot,
transaction-local working copy, trace of executed statements and console
events, count of `cur.execute` calls).  Exceptions are modelled by a fault
oracle `failAt : Option Nat`: the `cur.execute` call with that ordinal raises
instead of executing.  A failing connection attempt is modelled by the
separate flag `connectFails`.
-/

/-- A row of the `properties` table, with the five columns the script selects:
`property_id, radar_id, property_address, property_city, property_state`. -/
structure PropRow where
  property_id : Nat
  radar_id : String
  property_address : String
  property_city : String
  property_state : String
deriving DecidableEq, Repr

/-- The database state visible to the script: the parent table `properties`
carries full rows; for each of the six dependent tables only the
`property_id` column matters to the script, so a table is the list of the
`property_id` values of its rows.  The two boolean fields model whether the
change-tracking triggers `track_property_owner_changes` (on
`property_owners`) and `track_property_changes` (on `properties`) are
enabled. -/
structure DB where
  properties : List PropRow
  property_owner_history : List Nat
  property_history : List Nat
  loan_history : List Nat
  mail_recipients : List Nat
  loans : List Nat
  property_owners : List Nat
  ownersTriggerEnabled : Bool
  propertiesTriggerEnabled : Bool
deriving DecidableEq, Repr

/-- Observable events of a run: SQL statements executed through the cursor,
the transaction-control calls, the two interactive prompts, the notable
console messages, and the closing of cursor and connection. -/
inductive Ev where
  | selectProps
  | countQ (table : String)
  | deleteQ (table : String)
  | disableTrig (table trig : String)
  | enableTrig (table trig : String)
  | commitTx
  | rollbackTx
  | promptDelete
  | promptCommit
  | printMsg (s : String)
  | closeCursor
  | closeConn
deriving DecidableEq, Repr

/-- Python's `str.lower()`, as applied to the prompt answers before comparing
with `'yes'`: lower-cases each character. -/
def pyLower (s : String) : String := String.mk (s.data.map Char.toLower)

/-- The list `tables_and_counts` from the script: the seven `(table,
id_column)` pairs the count loops iterate over, in source order (history
tables, then child tables, then the parent table). -/
def tables_and_counts : List (String × String) :=
  [("property_owner_history", "property_id"),
   ("property_history", "property_id"),
   ("loan_history", "property_id"),
   ("mail_recipients", "property_id"),
   ("loans", "property_id"),
   ("property_owners", "property_id"),
   ("properties", "property_id")]

/-- The `SELECT ... FROM properties WHERE property_state = 'HI'` query:
the rows of `properties` whose state column is `"HI"`. -/
def hawaii_properties (db : DB) : List PropRow :=
  db.properties.filter (fun r => r.property_state == "HI")

/-- `hawaii_property_ids = [prop[0] for prop in hawaii_properties]`. -/
def hawaii_property_ids (db : DB) : List Nat :=
  (hawaii_properties db).map (fun r => r.property_id)

/-- The per-table count query `SELECT COUNT(*) FROM {table} WHERE {id_column}
IN ({placeholders})`, dispatched on the table name; `id_column` is always
`property_id`. -/
def tableCount (db : DB) (table : String) (ids : List Nat) : Nat :=
  match table with
  | "property_owner_history" => db.property_owner_history.countP (fun x => ids.contains x)
  | "property_history" => db.property_history.countP (fun x => ids.contains x)
  | "loan_history" => db.loan_history.countP (fun x => ids.contains x)
  | "mail_recipients" => db.mail_recipients.countP (fun x => ids.contains x)
  | "loans" => db.loans.countP (fun x => ids.contains x)
  | "property_owners" => db.property_owners.countP (fun x => ids.contains x)
  | "properties" => db.properties.countP (fun r => ids.contains r.property_id)
  | _ => 0

/-- `DELETE FROM property_owner_history WHERE property_id IN (...)`. -/
def delete_property_owner_history (ids : List Nat) (db : DB) : DB :=
  { db with property_owner_history := db.property_owner_history.filter (fun x => !ids.contains x) }

/-- `DELETE FROM property_history WHERE property_id IN (...)`. -/
def delete_property_history (ids : List Nat) (db : DB) : DB :=
  { db with property_history := db.property_history.filter (fun x => !ids.contains x) }

/-- `DELETE FROM loan_history WHERE property_id IN (...)`. -/
def delete_loan_history (ids : List Nat) (db : DB) : DB :=
  { db with loan_history := db.loan_history.filter (fun x => !ids.contains x) }

/-- `DELETE FROM mail_recipients WHERE property_id IN (...)`. -/
def delete_mail_recipients (ids : List Nat) (db : DB) : DB :=
  { db with mail_recipients := db.mail_recipients.filter (fun x => !ids.contains x) }

/-- `DELETE FROM loans WHERE property_id IN (...)`. -/
def delete_loans (ids : List Nat) (db : DB) : DB :=
  { db with loans := db.loans.filter (fun x => !ids.contains x) }

/-- `DELETE FROM property_owners WHERE property_id IN (...)`.
Modelled from the spec: the database-side change-tracking trigger
`track_property_owner_changes`, when enabled, records each deleted
`property_owners` row into `property_owner_history` (spec, data model:
history entities are populated by database-side change-tracking triggers;
trigger suppression prevents the delete itself from generating new history
rows). -/
def delete_property_owners (ids : List Nat) (db : DB) : DB :=
  let deleted := db.property_owners.filter (fun x => ids.contains x)
  { db with
      property_owners := db.property_owners.filter (fun x => !ids.contains x),
      property_owner_history :=
        if db.ownersTriggerEnabled then db.property_owner_history ++ deleted
        else db.property_owner_history }

/-- `DELETE FROM properties WHERE property_id IN (...)`.
Modelled from the spec: the database-side change-tracking trigger
`track_property_changes`, when enabled, records each deleted `properties`
row into `property_history`. -/
def delete_properties (ids : List Nat) (db : DB) : DB :=
  let deleted := db.properties.filter (fun r => ids.contains r.property_id)
  { db with
      properties := db.properties.filter (fun r => !ids.contains r.property_id),
      property_history :=
        if db.propertiesTriggerEnabled then db.property_history ++ deleted.map (fun r => r.property_id)
        else db.property_history }

/-- `ALTER TABLE property_owners DISABLE/ENABLE TRIGGER track_property_owner_changes`. -/
def set_owners_trigger (b : Bool) (db : DB) : DB :=
  { db with ownersTriggerEnabled := b }

/-- `ALTER TABLE properties DISABLE/ENABLE TRIGGER track_property_changes`. -/
def set_properties_trigger (b : Bool) (db : DB) : DB :=
  { db with propertiesTriggerEnabled := b }

/-- Interpreter state: the committed database snapshot, the transaction-local
working copy every statement acts on, the trace of events so far, the ordinal
of the next `cur.execute` call, and the counts printed by the pre-delete and
final count loops. -/
structure St where
  committed : DB
  working : DB
  trace : List Ev
  execCount : Nat
  preCounts : List (String × Nat)
  finalCounts : List (String × Nat)
deriving DecidableEq, Repr

/-- One `cur.execute` call: if the fault oracle targets this ordinal the call
raises (no event is recorded, no effect happens); otherwise the event is
appended to the trace and the effect applied to the working copy. -/
def runExec (failAt : Option Nat) (e : Ev) (eff : DB → DB) (st : St) : Except St St :=
  if failAt = some st.execCount then
    Except.error { st with execCount := st.execCount + 1 }
  else
    Except.ok { st with
      trace := st.trace ++ [e],
      working := eff st.working,
      execCount := st.execCount + 1 }

/-- Record a non-raising console event (a prompt or a print). -/
def emit (e : Ev) (st : St) : St :=
  { st with trace := st.trace ++ [e] }

/-- `conn.commit()`: the working copy becomes the committed snapshot. -/
def doCommit (st : St) : St :=
  { st with trace := st.trace ++ [Ev.commitTx], committed := st.working }

/-- `conn.rollback()`: the working copy is reset to the committed snapshot. -/
def doRollback (st : St) : St :=
  { st with trace := st.trace ++ [Ev.rollbackTx], working := st.committed }

/-- One iteration of the pre-delete count loop: execute the count query for
one `(table, id_column)` pair and append the resulting count to the list of
reported counts. -/
def countOne (failAt : Option Nat) (ids : List Nat)
    (acc : St × List (String × Nat)) (tc : String × String) :
    Except St (St × List (String × Nat)) := do
  let st ← runExec failAt (Ev.countQ tc.1) id acc.1
  pure (st, acc.2 ++ [(tc.1, tableCount st.working tc.1 ids)])

/-- One iteration of the final count loop; the script guards each iteration
with `if hawaii_property_ids:`. -/
def countOneFinal (failAt : Option Nat) (ids : List Nat)
    (acc : St × List (String × Nat)) (tc : String × String) :
    Except St (St × List (String × Nat)) :=
  if ids = [] then pure acc
  else do
    let st ← runExec failAt (Ev.countQ tc.1) id acc.1
    pure (st, acc.2 ++ [(tc.1, tableCount st.working tc.1 ids)])

/-- The `records_exist` flag: starts `False` and is set whenever a table's
count is positive, folding over the count results in loop order. -/
def records_exist_flag (counts : List (String × Nat)) : Bool :=
  counts.foldl (fun acc p => if 0 < p.2 then true else acc) false

/-- The delete phase of the script, lines 97-147: history tables first, then
`mail_recipients`, `loans`, `property_owners` (trigger disabled just before
and re-enabled just after), then `properties` (likewise). -/
def deletePhase (failAt : Option Nat) (ids : List Nat) (st : St) : Except St St := do
  let st ← runExec failAt (Ev.deleteQ "property_owner_history") (delete_property_owner_history ids) st
  let st ← runExec failAt (Ev.deleteQ "property_history") (delete_property_history ids) st
  let st ← runExec failAt (Ev.deleteQ "loan_history") (delete_loan_history ids) st
  let st ← runExec failAt (Ev.deleteQ "mail_recipients") (delete_mail_recipients ids) st
  let st ← runExec failAt (Ev.deleteQ "loans") (delete_loans ids) st
  let st ← runExec failAt (Ev.disableTrig "property_owners" "track_property_owner_changes") (set_owners_trigger false) st
  let st ← runExec failAt (Ev.deleteQ "property_owners") (delete_property_owners ids) st
  let st ← runExec failAt (Ev.enableTrig "property_owners" "track_property_owner_changes") (set_owners_trigger true) st
  let st ← runExec failAt (Ev.disableTrig "properties" "track_property_changes") (set_properties_trigger false) st
  let st ← runExec failAt (Ev.deleteQ "properties") (delete_properties ids) st
  let st ← runExec failAt (Ev.enableTrig "properties" "track_property_changes") (set_properties_trigger true) st
  pure st

/-- The body of the `try:` block of `cleanup_hawaii_records`, after the
connection has been acquired.  `Except.error` is a raised exception carrying
the state at the raise point. -/
def cleanupBody (i1 i2 : String) (failAt : Option Nat) (st : St) : Except St St := do
  let st ← runExec failAt Ev.selectProps id st
  let hp := hawaii_properties st.working
  if hp = [] then
    pure (emit (Ev.printMsg "No properties found in Hawaii. Nothing to delete.") st)
  else
    let ids := hp.map (fun r => r.property_id)
    let res ← tables_and_counts.foldlM (countOne failAt ids) (st, [])
    let st := { res.1 with preCounts := res.2 }
    if records_exist_flag res.2 = false then
      pure (emit (Ev.printMsg "No related records found. Nothing to delete.") st)
    else
      let st := emit Ev.promptDelete st
      if pyLower i1 = "yes" then
        let st ← deletePhase failAt ids st
        let st := emit Ev.promptCommit st
        let st :=
          if pyLower i2 = "yes" then
            emit (Ev.printMsg "Changes committed successfully!") (doCommit st)
          else
            emit (Ev.printMsg "Changes rolled back.") (doRollback st)
        let fin ← tables_and_counts.foldlM (countOneFinal failAt ids) (st, [])
        pure { fin.1 with finalCounts := fin.2 }
      else
        pure (emit (Ev.printMsg "Cleanup cancelled.") st)

/-- Result of a whole run of `cleanup_hawaii_records`: the final state, and
whether an exception was raised (and caught by the `except` clause). -/
structure RunResult where
  st : St
  raised : Bool
deriving DecidableEq, Repr

/-- The whole procedure `cleanup_hawaii_records`, for a given initial
database, the two interactive answers, the fault oracle for `cur.execute`
calls, and whether `psycopg2.connect` itself raises.  On an exception after
the connection exists, the `except` clause prints the error and rolls back;
the `finally` clause closes cursor and connection whenever they exist. -/
def cleanup_hawaii_records (db : DB) (i1 i2 : String) (failAt : Option Nat)
    (connectFails : Bool) : RunResult :=
  if connectFails then
    { st := { committed := db, working := db,
              trace := [Ev.printMsg "Error during cleanup"],
              execCount := 0, preCounts := [], finalCounts := [] },
      raised := true }
  else
    let st0 : St := { committed := db, working := db, trace := [],
                      execCount := 0, preCounts := [], finalCounts := [] }
    match cleanupBody i1 i2 failAt st0 with
    | Except.ok st =>
        { st := emit Ev.closeConn (emit Ev.closeCursor st), raised := false }
    | Except.error st =>
        let st := emit (Ev.printMsg "Error during cleanup") st
        let st := doRollback st
        { st := emit Ev.closeConn (emit Ev.closeCursor st), raised := true }

/-- The table names of the `DELETE` statements of a trace, in order. -/
def deletedTables (tr : List Ev) : List String :=
  tr.filterMap (fun e =>
    match e with
    | Ev.deleteQ t => some t
    | _ => none)

/-- The seven table names of `tables_and_counts`, in source order. -/
def sevenTables : List String :=
  ["property_owner_history", "property_history", "loan_history",
   "mail_recipients", "loans", "property_owners", "properties"]

/-- A Hawaii property row used in concrete runs. -/
def exRow : PropRow :=
  { property_id := 1, radar_id := "R1", property_address := "1 Aloha St",
    property_city := "Hilo", property_state := "HI" }

/-- A mainland property row used in concrete runs. -/
def caRow : PropRow :=
  { property_id := 2, radar_id := "R2", property_address := "2 Main St",
    property_city := "Fresno", property_state := "CA" }

/-- A concrete database with one Hawaii property and some dependent rows. -/
def dbEx : DB :=
  { properties := [exRow, caRow], property_owner_history := [1], property_history := [2],
    loan_history := [1], mail_recipients := [1], loans := [1, 1], property_owners := [1],
    ownersTriggerEnabled := true, propertiesTriggerEnabled := true }

/-- A concrete database with one Hawaii property and no rows at all in the six
dependent tables. -/
def dbNoDeps : DB :=
  { properties := [exRow], property_owner_history := [], property_history := [],
    loan_history := [], mail_recipients := [], loans := [], property_owners := [],
    ownersTriggerEnabled := true, propertiesTriggerEnabled := true }

/-- A concrete database with no Hawaii properties. -/
def dbNoHI : DB :=
  { properties := [caRow], property_owner_history := [5], property_history := [],
    loan_history := [], mail_recipients := [], loans := [5], property_owners := [5],
    ownersTriggerEnabled := true, propertiesTriggerEnabled := true }

/-- Unfolding of the count query for `property_owner_history`. -/
theorem tableCount_poh (db : DB) (ids : List Nat) :
    tableCount db "property_owner_history" ids
      = db.property_owner_history.countP (fun x => ids.contains x) := rfl

/-- Unfolding of the count query for `property_history`. -/
theorem tableCount_ph (db : DB) (ids : List Nat) :
    tableCount db "property_history" ids
      = db.property_history.countP (fun x => ids.contains x) := rfl

/-- Unfolding of the count query for `loan_history`. -/
theorem tableCount_lh (db : DB) (ids : List Nat) :
    tableCount db "loan_history" ids
      = db.loan_history.countP (fun x => ids.contains x) := rfl

/-- Unfolding of the count query for `mail_recipients`. -/
theorem tableCount_mr (db : DB) (ids : List Nat) :
    tableCount db "mail_recipients" ids
      = db.mail_recipients.countP (fun x => ids.contains x) := rfl

/-- Unfolding of the count query for `loans`. -/
theorem tableCount_loans (db : DB) (ids : List Nat) :
    tableCount db "loans" ids = db.loans.countP (fun x => ids.contains x) := rfl

/-- Unfolding of the count query for `property_owners`. -/
theorem tableCount_po (db : DB) (ids : List Nat) :
    tableCount db "property_owners" ids
      = db.property_owners.countP (fun x => ids.contains x) := rfl

/-- Unfolding of the count query for `properties`. -/
theorem tableCount_props (db : DB) (ids : List Nat) :
    tableCount db "properties" ids
      = db.properties.countP (fun r => ids.contains r.property_id) := rfl

/-- A `cur.execute` call with no fault targeted at it records its event and
applies its effect. -/
theorem runExec_none (e : Ev) (eff : DB → DB) (st : St) :
    runExec none e eff st = Except.ok { st with
      trace := st.trace ++ [e], working := eff st.working,
      execCount := st.execCount + 1 } := rfl

/-- Bind on a successful `Except` computation. -/
theorem except_bind_ok {ε α β : Type} (a : α) (f : α → Except ε β) :
    (Except.ok a : Except ε α) >>= f = f a := rfl

/-- Bind short-circuits on a raised exception. -/
theorem except_bind_err {ε α β : Type} (e : ε) (f : α → Except ε β) :
    (Except.error e : Except ε α) >>= f = Except.error e := rfl

/-- `pure` on `Except` is `Except.ok`. -/
theorem except_pure {ε α : Type} (a : α) : (pure a : Except ε α) = Except.ok a := rfl

/-- Counting with a predicate after filtering by its negation yields zero. -/
theorem countP_filter_not {α : Type} (l : List α) (p : α → Bool) :
    (l.filter (fun x => !p x)).countP p = 0 := by
  rw [List.countP_eq_zero]
  intro a ha
  rw [List.mem_filter] at ha
  simp_all

/-- When the initial select finds Hawaii rows, the count query on the parent
table `properties` for the captured id list is positive: each Hawaii row is a
row of `properties` whose id is in the list.  This is why the
`records_exist` abort can never fire once parent rows match. -/
theorem tableCount_props_pos (db : DB) (hne : hawaii_properties db ≠ []) :
    0 < tableCount db "properties" ((hawaii_properties db).map (fun r => r.property_id)) := by
  obtain ⟨r, hr⟩ := List.exists_mem_of_ne_nil _ hne
  rw [tableCount_props]
  rw [List.countP_pos_iff]
  refine ⟨r, List.mem_of_mem_filter hr, ?_⟩
  rw [List.contains_iff_exists_mem_beq]
  exact ⟨r.property_id, List.mem_map.mpr ⟨r, hr, rfl⟩, beq_self_eq_true _⟩

/-- The run wrapper unfolded: with a working connection, the result is the
body's outcome followed by the `except` clause (on an error) and the
`finally` clause (always). -/
theorem run_shape (db : DB) (i1 i2 : String) (failAt : Option Nat) :
    cleanup_hawaii_records db i1 i2 failAt false =
      match cleanupBody i1 i2 failAt
          { committed := db, working := db, trace := [], execCount := 0,
            preCounts := [], finalCounts := [] } with
      | Except.ok st => { st := emit Ev.closeConn (emit Ev.closeCursor st), raised := false }
      | Except.error st =>
          { st := emit Ev.closeConn (emit Ev.closeCursor
              (doRollback (emit (Ev.printMsg "Error during cleanup") st))),
            raised := true } := rfl

set_option maxHeartbeats 1000000 in
/-- C1: if matching parent rows exist and both confirmation prompts receive
"yes" (case-insensitive), then after the commit the per-table count query for
the captured property-id set returns zero for every table in the table list,
and the trigger disable and enable statements for `property_owners` and
`properties` are each executed exactly once. -/
theorem C1_commit_zero_counts_and_trigger_toggles (db : DB) (i1 i2 : String)
    (hne : hawaii_properties db ≠ []) (h1 : pyLower i1 = "yes") (h2 : pyLower i2 = "yes") :
    (cleanup_hawaii_records db i1 i2 none false).st.finalCounts
      = [("property_owner_history", 0), ("property_history", 0), ("loan_history", 0),
         ("mail_recipients", 0), ("loans", 0), ("property_owners", 0), ("properties", 0)] ∧
    Ev.commitTx ∈ (cleanup_hawaii_records db i1 i2 none false).st.trace ∧
    Ev.rollbackTx ∉ (cleanup_hawaii_records db i1 i2 none false).st.trace ∧
    ((cleanup_hawaii_records db i1 i2 none false).st.trace).count
      (Ev.disableTrig "property_owners" "track_property_owner_changes") = 1 ∧
    ((cleanup_hawaii_records db i1 i2 none false).st.trace).count
      (Ev.enableTrig "property_owners" "track_property_owner_changes") = 1 ∧
    ((cleanup_hawaii_records db i1 i2 none false).st.trace).count
      (Ev.disableTrig "properties" "track_property_changes") = 1 ∧
    ((cleanup_hawaii_records db i1 i2 none false).st.trace).count
      (Ev.enableTrig "properties" "track_property_changes") = 1 := by
  have hpos := tableCount_props_pos db hne
  rw [tableCount_props] at hpos
  simp [cleanup_hawaii_records, cleanupBody, tables_and_counts, List.foldlM, countOne,
    countOneFinal, runExec_none, except_bind_ok, except_pure, emit, doCommit, doRollback,
    deletePhase, records_exist_flag, hne, h1, h2, id,
    delete_property_owner_history, delete_property_history, delete_loan_history,
    delete_mail_recipients, delete_loans, delete_property_owners, delete_properties,
    set_owners_trigger, set_properties_trigger,
    tableCount_poh, tableCount_ph, tableCount_lh, tableCount_mr, tableCount_loans,
    tableCount_po, tableCount_props, countP_filter_not, hpos, hpos.ne',
    -List.elem_eq_mem, -List.countP_eq_zero, -List.countP_pos_iff]
  try decide

/-- C1 witness: the run on the concrete database `dbEx` with answers "YES"
and "yes". -/
theorem C1_witness :
    (cleanup_hawaii_records dbEx "YES" "yes" none false).st.finalCounts
      = [("property_owner_history", 0), ("property_history", 0), ("loan_history", 0),
         ("mail_recipients", 0), ("loans", 0), ("property_owners", 0), ("properties", 0)] ∧
    Ev.commitTx ∈ (cleanup_hawaii_records dbEx "YES" "yes" none false).st.trace ∧
    Ev.rollbackTx ∉ (cleanup_hawaii_records dbEx "YES" "yes" none false).st.trace ∧
    ((cleanup_hawaii_records dbEx "YES" "yes" none false).st.trace).count
      (Ev.disableTrig "property_owners" "track_property_owner_changes") = 1 ∧
    ((cleanup_hawaii_records dbEx "YES" "yes" none false).st.trace).count
      (Ev.enableTrig "property_owners" "track_property_owner_changes") = 1 ∧
    ((cleanup_hawaii_records dbEx "YES" "yes" none false).st.trace).count
      (Ev.disableTrig "properties" "track_property_changes") = 1 ∧
    ((cleanup_hawaii_records dbEx "YES" "yes" none false).st.trace).count
      (Ev.enableTrig "properties" "track_property_changes") = 1 :=
  C1_commit_zero_counts_and_trigger_toggles dbEx "YES" "yes" (by decide) (by decide) (by decide)

/-- C2 counterexample: the claim says the count loop and the delete sequence
each cover eight tables; on a concrete run both cover exactly the seven
tables of `tables_and_counts`, and seven is not eight. -/
theorem C2_counterexample :
    (cleanup_hawaii_records dbEx "yes" "yes" none false).st.preCounts.map Prod.fst = sevenTables ∧
    deletedTables (cleanup_hawaii_records dbEx "yes" "yes" none false).st.trace = sevenTables ∧
    sevenTables.length = 7 ∧ ¬(sevenTables.length = 8) ∧ ¬(tables_and_counts.length = 8) := by
  decide

/-- C2 amended: the procedure counts, deletes from and reports exactly seven
named tables (not eight): the table list has length seven, every run that
reaches the count phase records a count for exactly those seven tables in
order, and a run whose first confirmation is "yes" issues exactly those seven
DELETE statements in order. -/
theorem C2_amended_seven_tables (db : DB) (i1 i2 : String)
    (hne : hawaii_properties db ≠ []) :
    tables_and_counts.length = 7 ∧
    (cleanup_hawaii_records db i1 i2 none false).st.preCounts.map Prod.fst = sevenTables ∧
    (pyLower i1 = "yes" →
      deletedTables (cleanup_hawaii_records db i1 i2 none false).st.trace = sevenTables) := by
  have hpos := tableCount_props_pos db hne
  by_cases h1 : pyLower i1 = "yes"
  · by_cases h2 : pyLower i2 = "yes" <;>
      simp [cleanup_hawaii_records, cleanupBody, tables_and_counts, List.foldlM, countOne,
        countOneFinal, runExec_none, except_bind_ok, except_pure, emit, doCommit, doRollback,
        deletePhase, records_exist_flag, hne, h1, h2, hpos.ne', deletedTables, sevenTables, id]
  · simp [cleanup_hawaii_records, cleanupBody, tables_and_counts, List.foldlM, countOne,
      countOneFinal, runExec_none, except_bind_ok, except_pure, emit, doCommit, doRollback,
      deletePhase, records_exist_flag, hne, h1, hpos.ne', deletedTables, sevenTables, id]

/-- C2 witness: the amended claim at the concrete database `dbEx` with
answers "yes" and "no". -/
theorem C2_witness :
    tables_and_counts.length = 7 ∧
    (cleanup_hawaii_records dbEx "yes" "no" none false).st.preCounts.map Prod.fst = sevenTables ∧
    deletedTables (cleanup_hawaii_records dbEx "yes" "no" none false).st.trace = sevenTables :=
  ⟨(C2_amended_seven_tables dbEx "yes" "no" (by decide)).1,
   (C2_amended_seven_tables dbEx "yes" "no" (by decide)).2.1,
   (C2_amended_seven_tables dbEx "yes" "no" (by decide)).2.2 (by decide)⟩

/-- C3 counterexample: a database state whose parent table has one matching
Hawaii row while all six dependent tables are empty; the procedure does not
print the no-related-records abort message and does issue DELETE statements,
contrary to the claim. -/
theorem C3_counterexample :
    hawaii_properties dbNoDeps ≠ [] ∧
    tableCount dbNoDeps "property_owner_history" (hawaii_property_ids dbNoDeps) = 0 ∧
    tableCount dbNoDeps "property_history" (hawaii_property_ids dbNoDeps) = 0 ∧
    tableCount dbNoDeps "loan_history" (hawaii_property_ids dbNoDeps) = 0 ∧
    tableCount dbNoDeps "mail_recipients" (hawaii_property_ids dbNoDeps) = 0 ∧
    tableCount dbNoDeps "loans" (hawaii_property_ids dbNoDeps) = 0 ∧
    tableCount dbNoDeps "property_owners" (hawaii_property_ids dbNoDeps) = 0 ∧
    Ev.printMsg "No related records found. Nothing to delete."
        ∉ (cleanup_hawaii_records dbNoDeps "yes" "yes" none false).st.trace ∧
    Ev.deleteQ "properties" ∈ (cleanup_hawaii_records dbNoDeps "yes" "yes" none false).st.trace := by
  decide

/-- C3 amended: the no-related-records abort is unreachable once parent rows
match the filter, because the parent table itself is in the count list and
its count is then positive, so `records_exist` is always set; with matching
parent rows the procedure never prints the abort message and always reaches
the first confirmation prompt, even when every dependent table is empty. -/
theorem C3_amended_parent_rows_prevent_abort (db : DB) (i1 i2 : String)
    (hne : hawaii_properties db ≠ []) :
    Ev.printMsg "No related records found. Nothing to delete."
        ∉ (cleanup_hawaii_records db i1 i2 none false).st.trace ∧
    Ev.promptDelete ∈ (cleanup_hawaii_records db i1 i2 none false).st.trace := by
  have hpos := tableCount_props_pos db hne
  by_cases h1 : pyLower i1 = "yes"
  · by_cases h2 : pyLower i2 = "yes" <;>
      simp [cleanup_hawaii_records, cleanupBody, tables_and_counts, List.foldlM, countOne,
        countOneFinal, runExec_none, except_bind_ok, except_pure, emit, doCommit, doRollback,
        deletePhase, records_exist_flag, hne, h1, h2, hpos.ne', id]
  · simp [cleanup_hawaii_records, cleanupBody, tables_and_counts, List.foldlM, countOne,
      countOneFinal, runExec_none, except_bind_ok, except_pure, emit, doCommit, doRollback,
      deletePhase, records_exist_flag, hne, h1, hpos.ne', id]

/-- C3 witness: the amended claim on the dependent-free concrete database. -/
theorem C3_witness :
    Ev.printMsg "No related records found. Nothing to delete."
        ∉ (cleanup_hawaii_records dbNoDeps "no" "x" none false).st.trace ∧
    Ev.promptDelete ∈ (cleanup_hawaii_records dbNoDeps "no" "x" none false).st.trace :=
  C3_amended_parent_rows_prevent_abort dbNoDeps "no" "x" (by decide)

/-- C4: for every answer to the first confirmation prompt whose lower-cased
form is not "yes", the procedure returns before executing any DELETE, any
trigger-toggling ALTER TABLE, or a commit, and both the committed and the
working database states are unchanged. -/
theorem C4_gate1_refusal_no_mutation (db : DB) (i1 i2 : String)
    (h1 : pyLower i1 ≠ "yes") :
    (∀ t, Ev.deleteQ t ∉ (cleanup_hawaii_records db i1 i2 none false).st.trace) ∧
    (∀ t g, Ev.disableTrig t g ∉ (cleanup_hawaii_records db i1 i2 none false).st.trace) ∧
    (∀ t g, Ev.enableTrig t g ∉ (cleanup_hawaii_records db i1 i2 none false).st.trace) ∧
    Ev.commitTx ∉ (cleanup_hawaii_records db i1 i2 none false).st.trace ∧
    (cleanup_hawaii_records db i1 i2 none false).st.committed = db ∧
    (cleanup_hawaii_records db i1 i2 none false).st.working = db := by
  by_cases hp : hawaii_properties db = []
  · simp [cleanup_hawaii_records, cleanupBody, runExec_none, except_bind_ok, except_pure,
      emit, hp, id]
  · have hpos := tableCount_props_pos db hp
    simp [cleanup_hawaii_records, cleanupBody, tables_and_counts, List.foldlM, countOne,
      countOneFinal, runExec_none, except_bind_ok, except_pure, emit, doCommit, doRollback,
      deletePhase, records_exist_flag, hp, h1, hpos.ne', id]

/-- C4 witness: answering "nope" at the first prompt on `dbEx`. -/
theorem C4_witness :
    (∀ t, Ev.deleteQ t ∉ (cleanup_hawaii_records dbEx "nope" "yes" none false).st.trace) ∧
    (∀ t g, Ev.disableTrig t g ∉ (cleanup_hawaii_records dbEx "nope" "yes" none false).st.trace) ∧
    (∀ t g, Ev.enableTrig t g ∉ (cleanup_hawaii_records dbEx "nope" "yes" none false).st.trace) ∧
    Ev.commitTx ∉ (cleanup_hawaii_records dbEx "nope" "yes" none false).st.trace ∧
    (cleanup_hawaii_records dbEx "nope" "yes" none false).st.committed = dbEx ∧
    (cleanup_hawaii_records dbEx "nope" "yes" none false).st.working = dbEx :=
  C4_gate1_refusal_no_mutation dbEx "nope" "yes" (by decide)

/-- C5: if the first prompt receives "yes" and the second receives an answer
whose lower-cased form is not "yes", the transaction is rolled back: the
reported final per-table counts equal the pre-delete counts, a rollback and
no commit occur, and both database copies are back to the initial state. -/
theorem C5_gate2_rollback (db : DB) (i1 i2 : String)
    (hne : hawaii_properties db ≠ []) (h1 : pyLower i1 = "yes") (h2 : pyLower i2 ≠ "yes") :
    (cleanup_hawaii_records db i1 i2 none false).st.finalCounts
      = (cleanup_hawaii_records db i1 i2 none false).st.preCounts ∧
    Ev.rollbackTx ∈ (cleanup_hawaii_records db i1 i2 none false).st.trace ∧
    Ev.commitTx ∉ (cleanup_hawaii_records db i1 i2 none false).st.trace ∧
    (cleanup_hawaii_records db i1 i2 none false).st.committed = db ∧
    (cleanup_hawaii_records db i1 i2 none false).st.working = db := by
  have hpos := tableCount_props_pos db hne
  simp [cleanup_hawaii_records, cleanupBody, tables_and_counts, List.foldlM, countOne,
    countOneFinal, runExec_none, except_bind_ok, except_pure, emit, doCommit, doRollback,
    deletePhase, records_exist_flag, hne, h1, h2, hpos.ne', id]

/-- C5 witness: "Yes" then "NO" on `dbEx`. -/
theorem C5_witness :
    (cleanup_hawaii_records dbEx "Yes" "NO" none false).st.finalCounts
      = (cleanup_hawaii_records dbEx "Yes" "NO" none false).st.preCounts ∧
    Ev.rollbackTx ∈ (cleanup_hawaii_records dbEx "Yes" "NO" none false).st.trace ∧
    Ev.commitTx ∉ (cleanup_hawaii_records dbEx "Yes" "NO" none false).st.trace ∧
    (cleanup_hawaii_records dbEx "Yes" "NO" none false).st.committed = dbEx ∧
    (cleanup_hawaii_records dbEx "Yes" "NO" none false).st.working = dbEx :=
  C5_gate2_rollback dbEx "Yes" "NO" (by decide) (by decide) (by decide)

/-- C6: in every run that reaches the delete phase, the DELETE statements
are issued in exactly this order: the three history tables
(`property_owner_history`, `property_history`, `loan_history`), then
`mail_recipients`, then `loans`, then `property_owners`, then the parent
table `properties` — histories before children before the parent. -/
theorem C6_delete_order (db : DB) (i1 i2 : String)
    (hne : hawaii_properties db ≠ []) (h1 : pyLower i1 = "yes") :
    deletedTables (cleanup_hawaii_records db i1 i2 none false).st.trace
      = ["property_owner_history", "property_history", "loan_history",
         "mail_recipients", "loans", "property_owners", "properties"] := by
  have hpos := tableCount_props_pos db hne
  by_cases h2 : pyLower i2 = "yes" <;>
    simp [cleanup_hawaii_records, cleanupBody, tables_and_counts, List.foldlM, countOne,
      countOneFinal, runExec_none, except_bind_ok, except_pure, emit, doCommit, doRollback,
      deletePhase, records_exist_flag, hne, h1, h2, hpos.ne', deletedTables, id]

/-- C6 witness: "yEs" then "no" on `dbEx`. -/
theorem C6_witness :
    deletedTables (cleanup_hawaii_records dbEx "yEs" "no" none false).st.trace
      = ["property_owner_history", "property_history", "loan_history",
         "mail_recipients", "loans", "property_owners", "properties"] :=
  C6_delete_order dbEx "yEs" "no" (by decide) (by decide)

set_option maxHeartbeats 1000000 in
/-- C7: in every run that reaches the delete phase,
`track_property_owner_changes` is disabled immediately before and re-enabled
immediately after the DELETE on `property_owners`, and
`track_property_changes` likewise around the DELETE on `properties`: each
disable/delete/enable triple is a contiguous block of the trace, and each of
the four trigger-toggle statements is executed exactly once. -/
theorem C7_trigger_bracketing (db : DB) (i1 i2 : String)
    (hne : hawaii_properties db ≠ []) (h1 : pyLower i1 = "yes") :
    [Ev.disableTrig "property_owners" "track_property_owner_changes",
     Ev.deleteQ "property_owners",
     Ev.enableTrig "property_owners" "track_property_owner_changes"]
        <:+: (cleanup_hawaii_records db i1 i2 none false).st.trace ∧
    [Ev.disableTrig "properties" "track_property_changes",
     Ev.deleteQ "properties",
     Ev.enableTrig "properties" "track_property_changes"]
        <:+: (cleanup_hawaii_records db i1 i2 none false).st.trace ∧
    ((cleanup_hawaii_records db i1 i2 none false).st.trace).count
      (Ev.disableTrig "property_owners" "track_property_owner_changes") = 1 ∧
    ((cleanup_hawaii_records db i1 i2 none false).st.trace).count
      (Ev.enableTrig "property_owners" "track_property_owner_changes") = 1 ∧
    ((cleanup_hawaii_records db i1 i2 none false).st.trace).count
      (Ev.disableTrig "properties" "track_property_changes") = 1 ∧
    ((cleanup_hawaii_records db i1 i2 none false).st.trace).count
      (Ev.enableTrig "properties" "track_property_changes") = 1 := by
  have hpos := tableCount_props_pos db hne
  by_cases h2 : pyLower i2 = "yes" <;>
    · simp only [cleanup_hawaii_records, cleanupBody, tables_and_counts, List.foldlM,
        countOne, countOneFinal, runExec_none, except_bind_ok, except_bind_err, except_pure,
        emit, doCommit, doRollback, deletePhase, records_exist_flag, hne, h1, h2, hpos,
        hpos.ne', id, ne_eq, not_false_iff, ite_true, ite_false, if_true, if_false,
        Option.some.injEq, Nat.reduceEqDiff, Nat.reduceAdd, List.foldl, eq_self_iff_true,
        not_true, not_false_eq_true, Bool.false_eq_true, Bool.true_eq_false, and_true,
        true_and, List.map_eq_nil_iff]
      decide

/-- C7 witness: "YES" then "YES" on `dbEx`. -/
theorem C7_witness :
    [Ev.disableTrig "property_owners" "track_property_owner_changes",
     Ev.deleteQ "property_owners",
     Ev.enableTrig "property_owners" "track_property_owner_changes"]
        <:+: (cleanup_hawaii_records dbEx "YES" "YES" none false).st.trace ∧
    [Ev.disableTrig "properties" "track_property_changes",
     Ev.deleteQ "properties",
     Ev.enableTrig "properties" "track_property_changes"]
        <:+: (cleanup_hawaii_records dbEx "YES" "YES" none false).st.trace ∧
    ((cleanup_hawaii_records dbEx "YES" "YES" none false).st.trace).count
      (Ev.disableTrig "property_owners" "track_property_owner_changes") = 1 ∧
    ((cleanup_hawaii_records dbEx "YES" "YES" none false).st.trace).count
      (Ev.enableTrig "property_owners" "track_property_owner_changes") = 1 ∧
    ((cleanup_hawaii_records dbEx "YES" "YES" none false).st.trace).count
      (Ev.disableTrig "properties" "track_property_changes") = 1 ∧
    ((cleanup_hawaii_records dbEx "YES" "YES" none false).st.trace).count
      (Ev.enableTrig "properties" "track_property_changes") = 1 :=
  C7_trigger_bracketing dbEx "YES" "YES" (by decide) (by decide)

/-- C8: for every database state in which the initial SELECT on the parent
table returns zero matching rows, the procedure prints the informational
message and returns without issuing any further SQL statement: the whole
trace is the select, the message, and the closing of cursor and connection,
and the database is unchanged. -/
theorem C8_no_parent_rows_aborts (db : DB) (i1 i2 : String)
    (h : hawaii_properties db = []) :
    (cleanup_hawaii_records db i1 i2 none false).st.trace
      = [Ev.selectProps,
         Ev.printMsg "No properties found in Hawaii. Nothing to delete.",
         Ev.closeCursor, Ev.closeConn] ∧
    (cleanup_hawaii_records db i1 i2 none false).st.committed = db ∧
    (cleanup_hawaii_records db i1 i2 none false).st.working = db ∧
    (cleanup_hawaii_records db i1 i2 none false).raised = false := by
  simp [cleanup_hawaii_records, cleanupBody, runExec_none, except_bind_ok, except_pure,
    emit, h, id]

/-- C8 witness: the database with only a mainland property. -/
theorem C8_witness :
    (cleanup_hawaii_records dbNoHI "yes" "yes" none false).st.trace
      = [Ev.selectProps,
         Ev.printMsg "No properties found in Hawaii. Nothing to delete.",
         Ev.closeCursor, Ev.closeConn] ∧
    (cleanup_hawaii_records dbNoHI "yes" "yes" none false).st.committed = dbNoHI ∧
    (cleanup_hawaii_records dbNoHI "yes" "yes" none false).st.working = dbNoHI ∧
    (cleanup_hawaii_records dbNoHI "yes" "yes" none false).raised = false :=
  C8_no_parent_rows_aborts dbNoHI "yes" "yes" (by decide)

/-- C9: with a working connection, every run — succeeding, aborting, or
failing at any `cur.execute` call — ends by closing the cursor and then the
connection; and every run in which an exception was raised prints the error
message, performs the rollback of the `except` clause, and leaves the working
copy equal to the committed snapshot. -/
theorem C9_exception_caught_rollback_and_close (db : DB) (i1 i2 : String) (failAt : Option Nat) :
    (∃ pre, (cleanup_hawaii_records db i1 i2 failAt false).st.trace
        = pre ++ [Ev.closeCursor, Ev.closeConn]) ∧
    ((cleanup_hawaii_records db i1 i2 failAt false).raised = true →
      Ev.printMsg "Error during cleanup" ∈ (cleanup_hawaii_records db i1 i2 failAt false).st.trace ∧
      Ev.rollbackTx ∈ (cleanup_hawaii_records db i1 i2 failAt false).st.trace ∧
      (cleanup_hawaii_records db i1 i2 failAt false).st.working
        = (cleanup_hawaii_records db i1 i2 failAt false).st.committed) := by
  rw [run_shape]
  rcases hcb : cleanupBody i1 i2 failAt
      { committed := db, working := db, trace := [], execCount := 0,
        preCounts := [], finalCounts := [] } with st | st <;>
    simp [emit, doRollback]
  exact ⟨st.trace ++ [Ev.printMsg "Error during cleanup", Ev.rollbackTx], by simp⟩

/-- C9 witness: a fault injected at the fourth `cur.execute` call (a count
query) on `dbEx`, with the raised-run implication discharged. -/
theorem C9_witness :
    (∃ pre, (cleanup_hawaii_records dbEx "yes" "yes" (some 3) false).st.trace
        = pre ++ [Ev.closeCursor, Ev.closeConn]) ∧
    (Ev.printMsg "Error during cleanup" ∈ (cleanup_hawaii_records dbEx "yes" "yes" (some 3) false).st.trace ∧
     Ev.rollbackTx ∈ (cleanup_hawaii_records dbEx "yes" "yes" (some 3) false).st.trace ∧
     (cleanup_hawaii_records dbEx "yes" "yes" (some 3) false).st.working
       = (cleanup_hawaii_records dbEx "yes" "yes" (some 3) false).st.committed) :=
  ⟨(C9_exception_caught_rollback_and_close dbEx "yes" "yes" (some 3)).1,
   (C9_exception_caught_rollback_and_close dbEx "yes" "yes" (some 3)).2 (by decide)⟩

set_option maxHeartbeats 1000000 in
/-- C10: if the DELETE guarded by a trigger-disable raises (`cur.execute`
calls 14 and 17 are the deletes on `property_owners` and `properties`), the
matching trigger-enable statement is never executed: right after the disable
the trace goes directly to the handler (error message, rollback, closes), and
the working copy's trigger flag is back to its initial value, restored only
by the rollback. -/
theorem C10_fault_in_delete_skips_enable (db : DB) (i1 i2 : String)
    (hne : hawaii_properties db ≠ []) (h1 : pyLower i1 = "yes") :
    (Ev.enableTrig "property_owners" "track_property_owner_changes"
        ∉ (cleanup_hawaii_records db i1 i2 (some 14) false).st.trace ∧
     (cleanup_hawaii_records db i1 i2 (some 14) false).raised = true ∧
     [Ev.disableTrig "property_owners" "track_property_owner_changes",
      Ev.printMsg "Error during cleanup", Ev.rollbackTx, Ev.closeCursor, Ev.closeConn]
        <:+: (cleanup_hawaii_records db i1 i2 (some 14) false).st.trace ∧
     (cleanup_hawaii_records db i1 i2 (some 14) false).st.working.ownersTriggerEnabled
        = db.ownersTriggerEnabled) ∧
    (Ev.enableTrig "properties" "track_property_changes"
        ∉ (cleanup_hawaii_records db i1 i2 (some 17) false).st.trace ∧
     (cleanup_hawaii_records db i1 i2 (some 17) false).raised = true ∧
     [Ev.disableTrig "properties" "track_property_changes",
      Ev.printMsg "Error during cleanup", Ev.rollbackTx, Ev.closeCursor, Ev.closeConn]
        <:+: (cleanup_hawaii_records db i1 i2 (some 17) false).st.trace ∧
     (cleanup_hawaii_records db i1 i2 (some 17) false).st.working.propertiesTriggerEnabled
        = db.propertiesTriggerEnabled) := by
  have hpos := tableCount_props_pos db hne
  constructor <;>
    · simp only [cleanup_hawaii_records, cleanupBody, tables_and_counts, List.foldlM,
        countOne, countOneFinal, runExec, except_bind_ok, except_bind_err, except_pure,
        emit, doCommit, doRollback, deletePhase, records_exist_flag, hne, h1, hpos,
        hpos.ne', id, ne_eq, not_false_iff, ite_true, ite_false, if_true, if_false,
        Option.some.injEq, Nat.reduceEqDiff, Nat.reduceAdd, List.foldl, eq_self_iff_true,
        not_true, not_false_eq_true, Bool.false_eq_true, Bool.true_eq_false, and_true,
        true_and, List.map_eq_nil_iff]
      decide

/-- C10 witness: faults injected at the guarded deletes on `dbEx`. -/
theorem C10_witness :
    (Ev.enableTrig "property_owners" "track_property_owner_changes"
        ∉ (cleanup_hawaii_records dbEx "yes" "no" (some 14) false).st.trace ∧
     (cleanup_hawaii_records dbEx "yes" "no" (some 14) false).raised = true ∧
     [Ev.disableTrig "property_owners" "track_property_owner_changes",
      Ev.printMsg "Error during cleanup", Ev.rollbackTx, Ev.closeCursor, Ev.closeConn]
        <:+: (cleanup_hawaii_records dbEx "yes" "no" (some 14) false).st.trace ∧
     (cleanup_hawaii_records dbEx "yes" "no" (some 14) false).st.working.ownersTriggerEnabled
        = dbEx.ownersTriggerEnabled) ∧
    (Ev.enableTrig "properties" "track_property_changes"
        ∉ (cleanup_hawaii_records dbEx "yes" "no" (some 17) false).st.trace ∧
     (cleanup_hawaii_records dbEx "yes" "no" (some 17) false).raised = true ∧
     [Ev.disableTrig "properties" "track_property_changes",
      Ev.printMsg "Error during cleanup", Ev.rollbackTx, Ev.closeCursor, Ev.closeConn]
        <:+: (cleanup_hawaii_records dbEx "yes" "no" (some 17) false).st.trace ∧
     (cleanup_hawaii_records dbEx "yes" "no" (some 17) false).st.working.propertiesTriggerEnabled
        = dbEx.propertiesTriggerEnabled) :=
  C10_fault_in_delete_skips_enable dbEx "yes" "no" (by decide) (by decide)
